import Mathlib

/-!
Verification of the LibRecommender sources against their specification.

The definitions below are shallow embeddings of:
- `SIM._gsu_module`, `SIM.build_model`, `SIM._check_params`
  (src/libreco/algorithms/sim.py);
- `UserCF.__init__`, `UserCF.fit`, `UserCF.predict`, `UserCF.recommend_user`
  (src/libreco/algorithms/user_cf.py);
- `predict_tf_feat`, `build_transformed_data` (src/libreco/evaluate/computation.py);
- the `TransformedSet` constructor signature (src/libreco/data/transformed.py).

Machine floats are idealised as rationals; TensorFlow tensor rows become
lists over `ℚ`.
-/

set_option maxHeartbeats 1000000

namespace LibRec

/-! ### GSU embedding (`SIM._gsu_module`, sim.py lines 183-205) -/

/-- One entry of `tf.linalg.matmul(target_embeds, long_seq_embeds, transpose_b=True)`:
the dot product of the candidate embedding with one sequence-position embedding. -/
def dot (a b : List ℚ) : ℚ := (List.zipWith (· * ·) a b).sum

/-- `tf.sequence_mask(lens, maxlen)`: entry `i` is `true` iff `i < len`. -/
def seqMask (len maxLen : ℕ) : List Bool :=
  (List.range maxLen).map (fun i => decide (i < len))

/-- Raw GSU relevance scores: one dot product per long-sequence position
(`scores` before masking in `_gsu_module`). -/
def gsuScores (target : List ℚ) (seqEmbeds : List (List ℚ)) : List ℚ :=
  seqEmbeds.map (dot target)

/-- `tf.where(seq_mask, scores, -1e9 * tf.ones_like(scores))`. -/
def maskScores (mask : List Bool) (scores : List ℚ) : List ℚ :=
  List.zipWith (fun m s => if m then s else -(10 ^ 9 : ℚ)) mask scores

/-- The masked relevance scores the GSU hands to `tf.math.top_k`. -/
def gsuMaskedScores (target : List ℚ) (seqEmbeds : List (List ℚ)) (seqLen : ℕ) : List ℚ :=
  maskScores (seqMask seqLen seqEmbeds.length) (gsuScores target seqEmbeds)

/-- Selection order used by `tf.math.top_k`: higher score first,
ties broken towards the lower position index. -/
def topkRel (a b : ℚ × ℕ) : Prop := b.1 < a.1 ∨ (a.1 = b.1 ∧ a.2 ≤ b.2)

instance : DecidableRel topkRel := fun a b =>
  inferInstanceAs (Decidable (b.1 < a.1 ∨ (a.1 = b.1 ∧ a.2 ≤ b.2)))

instance : IsTotal (ℚ × ℕ) topkRel := by
  constructor
  intro a b
  rcases lt_trichotomy a.1 b.1 with h | h | h
  · exact Or.inr (Or.inl h)
  · rcases Nat.le_total a.2 b.2 with h2 | h2
    · exact Or.inl (Or.inr ⟨h, h2⟩)
    · exact Or.inr (Or.inr ⟨h.symm, h2⟩)
  · exact Or.inl (Or.inl h)

instance : IsTrans (ℚ × ℕ) topkRel := by
  constructor
  intro a b c hab hbc
  rcases hab with h1 | ⟨h1, h1'⟩ <;> rcases hbc with h2 | ⟨h2, h2'⟩
  · exact Or.inl (h2.trans h1)
  · exact Or.inl (h2 ▸ h1)
  · exact Or.inl (h1 ▸ h2)
  · exact Or.inr ⟨h1.trans h2, h1'.trans h2'⟩

/-- Each score paired with its original position index. -/
def scoredPositions (scores : List ℚ) : List (ℚ × ℕ) :=
  (List.range scores.length).map (fun i => (scores.getD i 0, i))

/-- `tf.math.top_k(scores, k).indices`: indices of the `k` highest scores,
ties broken towards the lower index. -/
def topKIndices (scores : List ℚ) (k : ℕ) : List ℕ :=
  ((List.insertionSort topkRel (scoredPositions scores)).take k).map Prod.snd

/-- The index tensor produced inside `_gsu_module`. -/
def gsuIndices (target : List ℚ) (seqEmbeds : List (List ℚ)) (seqLen k : ℕ) : List ℕ :=
  topKIndices (gsuMaskedScores target seqEmbeds seqLen) k

/-- `tf.gather(self.long_seq_embeds, indices, batch_dims=1)`. -/
def gsuTopKEmbeds (target : List ℚ) (seqEmbeds : List (List ℚ)) (seqLen k : ℕ) :
    List (List ℚ) :=
  (gsuIndices target seqEmbeds seqLen k).map (fun i => seqEmbeds.getD i [])

/-- `tf.gather(seq_mask, indices, axis=1, batch_dims=1)`: the top-K mask is
gathered from the original sequence mask at the selected indices. -/
def gsuTopKMasks (target : List ℚ) (seqEmbeds : List (List ℚ)) (seqLen k : ℕ) :
    List Bool :=
  (gsuIndices target seqEmbeds seqLen k).map
    (fun i => (seqMask seqLen seqEmbeds.length).getD i false)

/-! ### Basic facts about the GSU definitions -/

theorem getD_zipWith (f : Bool → ℚ → ℚ) :
    ∀ (as : List Bool) (bs : List ℚ) (i : ℕ), i < as.length → i < bs.length →
      (List.zipWith f as bs).getD i 0 = f (as.getD i false) (bs.getD i 0)
  | [], _, i, ha, _ => absurd ha (Nat.not_lt_zero i)
  | _ :: _, [], i, _, hb => absurd hb (Nat.not_lt_zero i)
  | _ :: _, _ :: _, 0, _, _ => rfl
  | a :: as, b :: bs, i + 1, ha, hb => by
    simpa using getD_zipWith f as bs i (Nat.lt_of_succ_lt_succ ha) (Nat.lt_of_succ_lt_succ hb)

theorem seqMask_length (len maxLen : ℕ) : (seqMask len maxLen).length = maxLen := by
  simp [seqMask]

theorem seqMask_getD (len maxLen i : ℕ) (h : i < maxLen) :
    (seqMask len maxLen).getD i false = decide (i < len) := by
  rw [List.getD_eq_getElem _ _ (by simpa [seqMask_length] using h)]
  simp [seqMask]

theorem gsuScores_length (t : List ℚ) (se : List (List ℚ)) :
    (gsuScores t se).length = se.length := by simp [gsuScores]

theorem gsuScores_getD (t : List ℚ) (se : List (List ℚ)) (i : ℕ) (h : i < se.length) :
    (gsuScores t se).getD i 0 = dot t (se.getD i []) := by
  rw [List.getD_eq_getElem _ _ (by simpa [gsuScores_length] using h),
    List.getD_eq_getElem _ _ h]
  simp [gsuScores]

theorem gsuMaskedScores_length (t : List ℚ) (se : List (List ℚ)) (len : ℕ) :
    (gsuMaskedScores t se len).length = se.length := by
  simp [gsuMaskedScores, maskScores, seqMask_length, gsuScores_length]

theorem gsuMaskedScores_getD (t : List ℚ) (se : List (List ℚ)) (len i : ℕ)
    (h : i < se.length) :
    (gsuMaskedScores t se len).getD i 0 =
      if i < len then dot t (se.getD i []) else -(10 ^ 9 : ℚ) := by
  unfold gsuMaskedScores maskScores
  rw [getD_zipWith _ _ _ _ (by simpa [seqMask_length] using h)
      (by simpa [gsuScores_length] using h),
    seqMask_getD _ _ _ h, gsuScores_getD _ _ _ h]
  by_cases hc : i < len <;> simp [hc]

/-! ### Exact top-K selection -/

/-- The score/position pairs arranged in the `tf.math.top_k` selection order. -/
def sortedScored (scores : List ℚ) : List (ℚ × ℕ) :=
  List.insertionSort topkRel (scoredPositions scores)

theorem map_snd_scoredPositions (s : List ℚ) :
    (scoredPositions s).map Prod.snd = List.range s.length := by
  rw [scoredPositions, List.map_map]
  exact List.map_id _

theorem perm_sortedScored (s : List ℚ) :
    List.Perm (sortedScored s) (scoredPositions s) :=
  List.perm_insertionSort _ _

theorem mem_scoredPositions {s : List ℚ} {p : ℚ × ℕ} :
    p ∈ scoredPositions s ↔ p.2 < s.length ∧ p.1 = s.getD p.2 0 := by
  constructor
  · intro h
    obtain ⟨i, hi, hp⟩ := List.mem_map.mp h
    obtain rfl := hp.symm
    exact ⟨List.mem_range.mp hi, rfl⟩
  · rintro ⟨h1, h2⟩
    exact List.mem_map.mpr ⟨p.2, List.mem_range.mpr h1, by rw [← h2]⟩

theorem mem_sortedScored {s : List ℚ} {p : ℚ × ℕ} :
    p ∈ sortedScored s ↔ p.2 < s.length ∧ p.1 = s.getD p.2 0 := by
  rw [(perm_sortedScored s).mem_iff, mem_scoredPositions]

theorem map_snd_sortedScored_perm (s : List ℚ) :
    List.Perm ((sortedScored s).map Prod.snd) (List.range s.length) :=
  map_snd_scoredPositions s ▸ (perm_sortedScored s).map Prod.snd

theorem nodup_map_snd_sortedScored (s : List ℚ) :
    ((sortedScored s).map Prod.snd).Nodup :=
  (map_snd_sortedScored_perm s).nodup_iff.mpr (List.nodup_range _)

theorem topKIndices_eq_take (s : List ℚ) (k : ℕ) :
    topKIndices s k = ((sortedScored s).map Prod.snd).take k := by
  rw [topKIndices, List.map_take, sortedScored]

theorem length_sortedScored (s : List ℚ) : (sortedScored s).length = s.length := by
  rw [(perm_sortedScored s).length_eq, scoredPositions, List.length_map,
    List.length_range]

theorem topKIndices_length (s : List ℚ) (k : ℕ) (hk : k ≤ s.length) :
    (topKIndices s k).length = k := by
  rw [topKIndices_eq_take, List.length_take, List.length_map, length_sortedScored]
  omega

theorem topKIndices_nodup (s : List ℚ) (k : ℕ) : (topKIndices s k).Nodup := by
  rw [topKIndices_eq_take]
  exact (List.take_sublist _ _).nodup (nodup_map_snd_sortedScored s)

theorem topKIndices_lt (s : List ℚ) (k : ℕ) :
    ∀ i ∈ topKIndices s k, i < s.length := by
  intro i hi
  rw [topKIndices_eq_take] at hi
  have := (map_snd_sortedScored_perm s).mem_iff.mp (List.take_subset _ _ hi)
  exact List.mem_range.mp this

theorem topKIndices_spec (s : List ℚ) (k : ℕ) (i j : ℕ)
    (hi : i ∈ topKIndices s k) (hj : j < s.length) (hjn : j ∉ topKIndices s k) :
    s.getD j 0 < s.getD i 0 ∨ (s.getD i 0 = s.getD j 0 ∧ i < j) := by
  obtain ⟨a, ha, rfl⟩ := List.mem_map.mp (by rw [topKIndices] at hi; exact hi)
  have hbmem : j ∈ ((sortedScored s).take k).map Prod.snd ∨
      j ∈ ((sortedScored s).drop k).map Prod.snd := by
    have hjall : j ∈ (sortedScored s).map Prod.snd :=
      (map_snd_sortedScored_perm s).mem_iff.mpr (List.mem_range.mpr hj)
    rw [← List.take_append_drop k (sortedScored s), List.map_append,
      List.mem_append] at hjall
    exact hjall
  rcases hbmem with hb | hb
  · exact absurd (by rw [topKIndices]; exact hb) hjn
  obtain ⟨b, hbdrop, rfl⟩ := List.mem_map.mp hb
  have hpair : List.Pairwise topkRel ((sortedScored s).take k ++ (sortedScored s).drop k) := by
    rw [List.take_append_drop]
    exact List.sorted_insertionSort topkRel (scoredPositions s)
  have hrel : topkRel a b := (List.pairwise_append.mp hpair).2.2 a ha b hbdrop
  have hamem : a ∈ sortedScored s := List.take_subset _ _ ha
  have hbmem2 : b ∈ sortedScored s := List.drop_subset _ _ hbdrop
  have haval : a.1 = s.getD a.2 0 := (mem_sortedScored.mp hamem).2
  have hbval : b.1 = s.getD b.2 0 := (mem_sortedScored.mp hbmem2).2
  have hane : a.2 ≠ b.2 := by
    intro hcontra
    rw [topKIndices] at hjn
    exact hjn (hcontra ▸ List.mem_map.mpr ⟨a, ha, rfl⟩)
  rcases hrel with h | ⟨h1, h2⟩
  · exact Or.inl (by rw [← haval, ← hbval]; exact h)
  · exact Or.inr ⟨by rw [← haval, ← hbval]; exact h1, lt_of_le_of_ne h2 hane⟩

theorem length_le_of_nodup_lt (l : List ℕ) (n : ℕ) (hnd : l.Nodup)
    (hlt : ∀ i ∈ l, i < n) : l.length ≤ n := by
  have h1 : l.toFinset ⊆ Finset.range n := by
    intro x hx
    rw [Finset.mem_range]
    exact hlt x (List.mem_toFinset.mp hx)
  have h2 := Finset.card_le_card h1
  rwa [List.toFinset_card_of_nodup hnd, Finset.card_range] at h2

theorem gsuIndices_length (t : List ℚ) (se : List (List ℚ)) (len k : ℕ)
    (hk : k ≤ se.length) : (gsuIndices t se len k).length = k := by
  rw [gsuIndices]
  exact topKIndices_length _ _ (by rw [gsuMaskedScores_length]; exact hk)

theorem gsuIndices_lt (t : List ℚ) (se : List (List ℚ)) (len k : ℕ) :
    ∀ i ∈ gsuIndices t se len k, i < se.length := by
  intro i hi
  have := topKIndices_lt (gsuMaskedScores t se len) k i hi
  rwa [gsuMaskedScores_length] at this

/-- When the true length is below `search_topk` and every raw relevance score of a
real position lies above the `-1e9` sentinel, every real position is selected. -/
theorem gsu_real_selected (t : List ℚ) (se : List (List ℚ)) (len k : ℕ)
    (hk : k ≤ se.length) (hlk : len < k)
    (hraw : ∀ i, i < len → -(10 ^ 9 : ℚ) < dot t (se.getD i []))
    (i : ℕ) (hi : i < len) : i ∈ gsuIndices t se len k := by
  by_contra hni
  have hlen : len ≤ se.length := le_of_lt (lt_of_lt_of_le hlk hk)
  have hmslen : (gsuMaskedScores t se len).length = se.length :=
    gsuMaskedScores_length t se len
  have hsel_len : (gsuIndices t se len k).length = k := gsuIndices_length t se len k hk
  have hexists : ∃ j ∈ gsuIndices t se len k, len ≤ j := by
    by_contra hall
    push_neg at hall
    have := length_le_of_nodup_lt (gsuIndices t se len k) len
      (topKIndices_nodup _ _) hall
    omega
  obtain ⟨j, hj, hjlen⟩ := hexists
  have hjlt : j < se.length := gsuIndices_lt t se len k j hj
  have hspec := topKIndices_spec (gsuMaskedScores t se len) k j i hj
    (by rw [hmslen]; omega) hni
  have hmi : (gsuMaskedScores t se len).getD i 0 = dot t (se.getD i []) := by
    rw [gsuMaskedScores_getD t se len i (by omega)]
    simp [hi]
  have hmj : (gsuMaskedScores t se len).getD j 0 = -(10 ^ 9 : ℚ) := by
    rw [gsuMaskedScores_getD t se len j hjlt]
    simp [Nat.not_lt.mpr hjlen]
  have hri := hraw i hi
  rcases hspec with h | ⟨h, _⟩
  · rw [hmi, hmj] at h
    linarith
  · rw [hmi, hmj] at h
    linarith

/-- Exactly `len` of the selected positions are real when `len < k` and raw scores
stay above the sentinel. -/
theorem gsu_selected_real_count (t : List ℚ) (se : List (List ℚ)) (len k : ℕ)
    (hk : k ≤ se.length) (hlk : len < k)
    (hraw : ∀ i, i < len → -(10 ^ 9 : ℚ) < dot t (se.getD i [])) :
    ((gsuIndices t se len k).filter (fun i => decide (i < len))).length = len := by
  have hnd : ((gsuIndices t se len k).filter (fun i => decide (i < len))).Nodup :=
    (topKIndices_nodup _ _).filter _
  have hset : ((gsuIndices t se len k).filter (fun i => decide (i < len))).toFinset
      = Finset.range len := by
    ext x
    rw [List.mem_toFinset, Finset.mem_range, List.mem_filter]
    constructor
    · rintro ⟨_, hx⟩
      exact of_decide_eq_true hx
    · intro hx
      exact ⟨gsu_real_selected t se len k hk hlk hraw x hx, decide_eq_true hx⟩
  have := List.toFinset_card_of_nodup hnd
  rw [hset, Finset.card_range] at this
  omega

theorem count_false_map_lt (len : ℕ) : ∀ sel : List ℕ,
    (sel.map (fun i => decide (i < len))).count false
      = sel.length - (sel.filter (fun i => decide (i < len))).length
  | [] => rfl
  | a :: l => by
    have ih := count_false_map_lt len l
    have hle := List.length_filter_le (fun i => decide (i < len)) l
    by_cases h : a < len
    · simp only [List.map_cons, List.filter_cons, h, decide_true_eq_true]
      simp [List.count_cons, ih]
    · simp only [List.map_cons, List.filter_cons, h, decide_false_eq_false]
      simp [List.count_cons, ih]
      omega

/-- The gathered top-K mask holds exactly `k - len` `false` entries when
`len < k` and raw scores stay above the sentinel. -/
theorem gsu_mask_false_count (t : List ℚ) (se : List (List ℚ)) (len k : ℕ)
    (hk : k ≤ se.length) (hlk : len < k)
    (hraw : ∀ i, i < len → -(10 ^ 9 : ℚ) < dot t (se.getD i [])) :
    (gsuTopKMasks t se len k).count false = k - len := by
  have hmaskeq : gsuTopKMasks t se len k
      = (gsuIndices t se len k).map (fun i => decide (i < len)) := by
    rw [gsuTopKMasks]
    exact List.map_congr_left
      (fun i hi => seqMask_getD len se.length i (gsuIndices_lt t se len k i hi))
  rw [hmaskeq, count_false_map_lt, gsuIndices_length t se len k hk,
    gsu_selected_real_count t se len k hk hlk hraw]

theorem getD_map_lt {α β : Type} (f : α → β) (l : List α) (j : ℕ) (d : α) (db : β)
    (h : j < l.length) : (l.map f).getD j db = f (l.getD j d) := by
  rw [List.getD_eq_getElem _ _ (by simpa using h), List.getD_eq_getElem _ _ h,
    List.getElem_map]

theorem getD_mem_of_lt (l : List ℕ) (j d : ℕ) (h : j < l.length) : l.getD j d ∈ l := by
  rw [List.getD_eq_getElem _ _ h]
  exact List.getElem_mem h

/-- Claim C1 (amended): for every example, the GSU sets the relevance score of every
padding position (index at or beyond `long_seq_len`) to the large negative sentinel
`-1e9` before top-K selection, so padding is never preferred over a real position
whose raw score lies above the sentinel; and the mask returned alongside the top-K
embeddings is gathered from the original sequence mask at the selected indices,
so a selected position that was padding stays marked `false`. -/
theorem gsu_padding_sentinel_and_gathered_mask
    (t : List ℚ) (se : List (List ℚ)) (len k : ℕ) (hk : k ≤ se.length) :
    (∀ i, len ≤ i → i < se.length →
        (gsuMaskedScores t se len).getD i 0 = -(10 ^ 9 : ℚ)) ∧
    (∀ j, j < k →
        (gsuTopKMasks t se len k).getD j false
          = (seqMask len se.length).getD ((gsuIndices t se len k).getD j se.length) false) ∧
    (∀ j, j < k → len ≤ (gsuIndices t se len k).getD j se.length →
        (gsuTopKMasks t se len k).getD j false = false) ∧
    (∀ i j, i < len → len ≤ j →
        -(10 ^ 9 : ℚ) < dot t (se.getD i []) →
        j ∈ gsuIndices t se len k → i ∈ gsuIndices t se len k) := by
  have hlen_ind : (gsuIndices t se len k).length = k := gsuIndices_length t se len k hk
  refine ⟨?_, ?_, ?_, ?_⟩
  · intro i hi1 hi2
    rw [gsuMaskedScores_getD t se len i hi2]
    simp [Nat.not_lt.mpr hi1]
  · intro j hj
    rw [gsuTopKMasks]
    exact getD_map_lt _ _ j se.length false (by omega)
  · intro j hj hpad
    rw [gsuTopKMasks, getD_map_lt _ _ j se.length false (by omega)]
    have hjmem : (gsuIndices t se len k).getD j se.length ∈ gsuIndices t se len k :=
      getD_mem_of_lt _ _ _ (by omega)
    have hjlt := gsuIndices_lt t se len k _ hjmem
    rw [seqMask_getD _ _ _ hjlt]
    simp only [decide_eq_false_iff_not]
    omega
  · intro i j hi hj hraw hjmem
    by_contra hni
    have hjlt : j < se.length := gsuIndices_lt t se len k j hjmem
    have hspec := topKIndices_spec (gsuMaskedScores t se len) k j i hjmem
      (by rw [gsuMaskedScores_length]; omega) hni
    have hmi : (gsuMaskedScores t se len).getD i 0 = dot t (se.getD i []) := by
      rw [gsuMaskedScores_getD t se len i (by omega)]
      simp [hi]
    have hmj : (gsuMaskedScores t se len).getD j 0 = -(10 ^ 9 : ℚ) := by
      rw [gsuMaskedScores_getD t se len j hjlt]
      simp [Nat.not_lt.mpr hj]
    rcases hspec with h | ⟨h, _⟩
    · rw [hmi, hmj] at h
      linarith
    · rw [hmi, hmj] at h
      linarith

/-- Witness for C1: concrete GSU input with `long_max_len = 3`, `long_seq_len = 2`,
`search_topk = 2`; the padding position 2 carries the sentinel score. -/
theorem gsu_padding_sentinel_and_gathered_mask_witness :
    (gsuMaskedScores [1] [[2], [1], [3]] 2).getD 2 0 = -(10 ^ 9 : ℚ) :=
  (gsu_padding_sentinel_and_gathered_mask [1] [[2], [1], [3]] 2 2 (by simp)).1 2
    (by norm_num) (by simp)

/-- Counterexample for C1 as stated: with `long_seq_len = search_topk = 1` and the
single real position 0 carrying a raw score of `-2e9`, below the `-1e9` sentinel, the
GSU selects the padding position 1 and leaves the real position 0 unselected —
padding is preferred over a real position whose raw score falls below the sentinel. -/
theorem gsu_padding_preferred_cex :
    gsuIndices [1] [[-2000000000], [0], [0]] 1 1 = [1] ∧
    1 ∈ gsuIndices [1] [[-2000000000], [0], [0]] 1 1 ∧
    0 ∉ gsuIndices [1] [[-2000000000], [0], [0]] 1 1 := by
  have h1 : gsuIndices [1] [[-2000000000], [0], [0]] 1 1 = [1] := by
    norm_num [gsuIndices, topKIndices, gsuMaskedScores, maskScores, gsuScores,
      seqMask, dot, scoredPositions, List.insertionSort, List.orderedInsert, topkRel]
  refine ⟨h1, by rw [h1]; exact List.mem_singleton_self 1, by rw [h1]; simp⟩

/-- Claim C2 (amended): for every row of masked scores the GSU selects exactly the
`search_topk` highest-scoring positions — exact top-K, deterministic, ties broken by
lowest original position index; and, for every example with
`long_seq_len < search_topk` whose real positions all have raw scores strictly above
the `-1e9` sentinel, exactly `search_topk - long_seq_len` entries of the gathered
top-K mask are `false`. -/
theorem gsu_topk_exact_and_mask_false_count
    (s : List ℚ) (k : ℕ) (hk : k ≤ s.length)
    (t : List ℚ) (se : List (List ℚ)) (len topk : ℕ)
    (htopk : topk ≤ se.length) (hlk : len < topk)
    (hraw : ∀ i, i < len → -(10 ^ 9 : ℚ) < dot t (se.getD i [])) :
    (topKIndices s k).length = k ∧
    (topKIndices s k).Nodup ∧
    (∀ i ∈ topKIndices s k, i < s.length) ∧
    (∀ i ∈ topKIndices s k, ∀ j, j < s.length → j ∉ topKIndices s k →
        s.getD j 0 < s.getD i 0 ∨ (s.getD i 0 = s.getD j 0 ∧ i < j)) ∧
    (gsuTopKMasks t se len topk).count false = topk - len :=
  ⟨topKIndices_length s k hk, topKIndices_nodup s k, topKIndices_lt s k,
    fun i hi j hj hjn => topKIndices_spec s k i j hi hj hjn,
    gsu_mask_false_count t se len topk htopk hlk hraw⟩

/-- Witness for C2: concrete example with true length 1 below `search_topk = 2`
and the one real raw score above the sentinel; one gathered mask entry is `false`. -/
theorem gsu_topk_exact_and_mask_false_count_witness :
    (gsuTopKMasks [1] [[-1], [0], [0]] 1 2).count false = 2 - 1 :=
  (gsu_topk_exact_and_mask_false_count [5, 7, 7] 2 (by simp)
    [1] [[-1], [0], [0]] 1 2 (by simp) (by norm_num)
    (fun i hi => by
      interval_cases i
      norm_num [dot])).2.2.2.2

/-- Counterexample for C2 as stated: with `long_seq_len = 1 < search_topk = 2` but
the single real position carrying a raw score of `-2e9`, below the `-1e9` sentinel,
both selected positions are padding and the gathered mask holds two `false`
entries instead of `search_topk - long_seq_len = 1`. -/
theorem gsu_topk_mask_false_count_cex :
    ¬ ((gsuTopKMasks [1] [[-2000000000], [0], [0]] 1 2).count false = 2 - 1) := by
  norm_num [gsuTopKMasks, gsuIndices, topKIndices, gsuMaskedScores, maskScores,
    gsuScores, seqMask, dot, scoredPositions, List.insertionSort, List.orderedInsert,
    topkRel, List.count_cons]

/-! ### SIM model head (`SIM.build_model`, sim.py lines 112-127) and parameter
validation (`SIM._check_params`, sim.py lines 104-110) -/

/-- The two supported tasks. -/
inductive Task
  | rating
  | ranking
deriving DecidableEq

/-- Python exception kinds raised by the embedded code. -/
inductive PyErr
  | assertionError
  | valueError
  | typeError
deriving DecidableEq

/-- Embedding of `SIM._check_params`: each `assert` raises `AssertionError` when its
condition fails, and an unsupported `loss_type` for the ranking task raises
`ValueError`. -/
def check_params (task : Task) (loss_type : String) (alpha beta : ℚ)
    (short_max_len long_max_len search_topk : ℤ) : Except PyErr Unit :=
  if ¬ (0 ≤ alpha ∧ alpha ≤ 1) then .error .assertionError
  else if ¬ (0 ≤ beta ∧ beta ≤ 1) then .error .assertionError
  else if ¬ (0 < short_max_len) then .error .assertionError
  else if ¬ (search_topk ≤ long_max_len ∧ 0 < search_topk) then .error .assertionError
  else if task = .ranking ∧ loss_type ≠ "cross_entropy" ∧ loss_type ≠ "focal" then
    .error .valueError
  else .ok ()

/-- The per-example score tensors wired up by `SIM.build_model`:
`self.output`, `self.inference_output`, and the scores handed to
`self.build_topk` for `self.serving_topk`. -/
structure SIMGraph where
  output : ℚ
  inference_output : ℚ
  serving_topk_scores : ℚ
deriving Inhabited

/-- Embedding of the score wiring in `SIM.build_model` (sim.py lines 122-126). -/
def build_model (alpha beta first_stage_out second_stage_out : ℚ) : SIMGraph :=
  { output := alpha * first_stage_out + beta * second_stage_out
    inference_output := second_stage_out
    serving_topk_scores := second_stage_out }

/-- Claim C5: construction of the SIM model fails with a fatal validation error
exactly when alpha or beta lies outside [0,1], `short_max_len <= 0`,
`search_topk <= 0`, `search_topk > long_max_len`, or the loss-type string is
unsupported for the ranking task; every valid configuration passes. -/
theorem check_params_ok_iff (task : Task) (loss_type : String) (alpha beta : ℚ)
    (short_max_len long_max_len search_topk : ℤ) :
    check_params task loss_type alpha beta short_max_len long_max_len search_topk
        = .ok () ↔
      (0 ≤ alpha ∧ alpha ≤ 1) ∧ (0 ≤ beta ∧ beta ≤ 1) ∧ 0 < short_max_len ∧
        0 < search_topk ∧ search_topk ≤ long_max_len ∧
        (task = .ranking → loss_type = "cross_entropy" ∨ loss_type = "focal") := by
  unfold check_params
  split_ifs with h1 h2 h3 h4 h5 <;> simp_all
  all_goals try tauto
  all_goals omega

/-- Witness for C5: a valid ranking configuration passes validation. -/
theorem check_params_ok_iff_witness :
    check_params .ranking "focal" (1 / 2) 1 10 100 10 = .ok () :=
  (check_params_ok_iff .ranking "focal" (1 / 2) 1 10 100 10).mpr
    (by norm_num)

/-! ### Evaluation-time prediction (`predict_tf_feat`, computation.py lines 100-117) -/

/-- The transform `1 / (1 + np.exp(-preds))` applied for the ranking task. -/
noncomputable def sigmoid (x : ℚ) : ℝ := 1 / (1 + Real.exp (-(x : ℝ)))

/-- `np.clip(preds, lower_bound, upper_bound)`: the value clipped to the bounds. -/
def clip (x lo hi : ℚ) : ℚ := min (max x lo) hi

/-- The task-dependent output transform at the end of `predict_tf_feat`. -/
noncomputable def taskTransform (task : Task) (lo hi : ℚ) (scores : List ℚ) : List ℝ :=
  match task with
  | .rating => scores.map (fun x => ((clip x lo hi : ℚ) : ℝ))
  | .ranking => scores.map sigmoid

/-- Embedding of `predict_tf_feat`: `preds = model.sess.run(model.output, ...)` runs
the fused-output tensor for the batch's examples, then applies the task transform. -/
noncomputable def predict_tf_feat (task : Task) (lo hi : ℚ) (graphs : List SIMGraph) :
    List ℝ :=
  taskTransform task lo hi (graphs.map SIMGraph.output)

/-- Claim C3 (amended): the model's inference output and serving top-K scores are
computed from the second-stage score alone; however, evaluation-time predictions in
`predict_tf_feat` are computed from the fused training output `model.output`, not
from the inference output. -/
theorem inference_uses_second_stage (alpha beta f s : ℚ) (task : Task) (lo hi : ℚ)
    (graphs : List SIMGraph) :
    (build_model alpha beta f s).inference_output = s ∧
    (build_model alpha beta f s).serving_topk_scores = s ∧
    predict_tf_feat task lo hi graphs
      = taskTransform task lo hi (graphs.map SIMGraph.output) :=
  ⟨rfl, rfl, rfl⟩

/-- Counterexample for C3 as stated: a rating-task model with `alpha = beta = 1`,
first-stage score 2 and second-stage score 1 — `predict_tf_feat` clips the fused
output 3, while the second-stage inference output would give 1. -/
theorem predict_uses_fused_cex :
    predict_tf_feat .rating (-10) 10 [build_model 1 1 2 1]
      ≠ taskTransform .rating (-10) 10
          ([build_model 1 1 2 1].map SIMGraph.inference_output) := by
  simp only [predict_tf_feat, taskTransform, build_model, clip, List.map_cons,
    List.map_nil, ne_eq, List.cons.injEq, and_true, not_and, List.cons_ne_nil]
  norm_num

/-- Claim C4 (amended): for all alpha and beta in [0,1], the fused training output
equals `alpha * stage1 + beta * stage2`; when `alpha = 0` and `beta = 1`, the fused
output equals the second-stage score exactly. -/
theorem fused_output_formula (alpha beta f s : ℚ)
    (ha : 0 ≤ alpha ∧ alpha ≤ 1) (hb : 0 ≤ beta ∧ beta ≤ 1) :
    (build_model alpha beta f s).output = alpha * f + beta * s ∧
    (alpha = 0 → beta = 1 → (build_model alpha beta f s).output = s) := by
  refine ⟨rfl, ?_⟩
  rintro rfl rfl
  simp [build_model]

/-- Witness for C4 at alpha = 0, beta = 1. -/
theorem fused_output_formula_witness : (build_model 0 1 5 7).output = 7 :=
  (fused_output_formula 0 1 5 7 (by norm_num) (by norm_num)).2 rfl rfl

/-- Counterexample for C4 as stated: alpha = 0 and beta = 1/2 both lie in [0,1],
yet the fused output is 1/2 times the second-stage score, not the second-stage
score itself. -/
theorem fused_output_alpha_zero_cex :
    (0 : ℚ) ≤ 1 / 2 ∧ (1 / 2 : ℚ) ≤ 1 ∧ (build_model 0 (1 / 2) 0 1).output ≠ 1 := by
  norm_num [build_model]

/-- Claim C6: for every evaluated batch, the forward pass yields one scalar score per
example, and the returned prediction is sigmoid(score) for the ranking task and the
score clipped to `[lower_bound, upper_bound]` for the rating task. -/
theorem predict_transform_per_example (task : Task) (lo hi : ℚ)
    (graphs : List SIMGraph) :
    (predict_tf_feat task lo hi graphs).length = graphs.length ∧
    (task = .ranking → ∀ p, p < graphs.length →
        (predict_tf_feat task lo hi graphs).getD p 0
          = sigmoid ((graphs.getD p default).output)) ∧
    (task = .rating → ∀ p, p < graphs.length →
        (predict_tf_feat task lo hi graphs).getD p 0
          = ((clip ((graphs.getD p default).output) lo hi : ℚ) : ℝ)) := by
  refine ⟨?_, ?_, ?_⟩
  · cases task <;> simp [predict_tf_feat, taskTransform]
  · rintro rfl p hp
    rw [predict_tf_feat, taskTransform]
    rw [getD_map_lt sigmoid _ p 0 0 (by simpa using hp),
      getD_map_lt SIMGraph.output _ p default 0 hp]
  · rintro rfl p hp
    rw [predict_tf_feat, taskTransform]
    rw [getD_map_lt _ _ p 0 0 (by simpa using hp),
      getD_map_lt SIMGraph.output _ p default 0 hp]

/-- Witness for C6: one ranking-task example whose fused score is 3. -/
theorem predict_transform_per_example_witness :
    (predict_tf_feat .ranking 0 1 [build_model 1 1 2 1]).getD 0 0
      = sigmoid ((build_model 1 1 2 1).output) :=
  (predict_transform_per_example .ranking 0 1 [build_model 1 1 2 1]).2.1 rfl 0
    (by simp)

/-! ### UserCF (src/libreco/algorithms/user_cf.py) -/

/-- Data owned by a fitted UserCF model; CSR matrix rows become association lists
kept in ascending-index order (the code asserts `has_sorted_indices`). -/
structure CFData where
  n_users : ℕ
  n_items : ℕ
  sim_rows : ℕ → List (ℕ × ℚ)
  inter_rows : ℕ → List (ℕ × ℚ)
  item_rows : ℕ → List (ℕ × ℚ)
  user_consumed : ℕ → List ℕ
  k : ℕ

/-- The warning messages printed by `UserCF._caution_sim_type`; they are printed,
never raised. -/
def caution_sim_type (task : Task) (sim_type : String) : List String :=
  (if task = .ranking ∧ sim_type = "pearson"
    then ["Warning: " ++ sim_type ++ " is not suitable for implicit data"] else []) ++
  (if task = .rating ∧ sim_type = "jaccard"
    then ["Warning: " ++ sim_type ++ " is not suitable for implicit data"] else [])

/-- The configuration fields set by `UserCF.__init__`. -/
structure UserCFModel where
  task : Task
  k : ℕ
  default_prediction : ℚ
  n_users : ℕ
  n_items : ℕ
  sim_type : String

/-- Embedding of `UserCF.__init__` (user_cf.py lines 14-36): it stores the fields,
computes the default prediction, and prints the suitability caution; no exception is
raised for any `sim_type`. -/
def usercf_init (task : Task) (global_mean : ℚ) (n_users n_items : ℕ)
    (sim_type : String) (k : ℕ) : Except PyErr (UserCFModel × List String) :=
  .ok ({ task := task, k := k,
         default_prediction := if task = .rating then global_mean else 0,
         n_users := n_users, n_items := n_items, sim_type := sim_type },
       caution_sim_type task sim_type)

/-- The three similarity functions `UserCF.fit` can dispatch to. -/
inductive SimFunc
  | cosine
  | pearson
  | jaccard
deriving DecidableEq

/-- The `sim_type` dispatch at the start of `UserCF.fit` (user_cf.py lines 46-54);
an unknown string raises `ValueError` there. -/
def fit_sim_func (sim_type : String) : Except PyErr SimFunc :=
  if sim_type = "cosine" then .ok .cosine
  else if sim_type = "pearson" then .ok .pearson
  else if sim_type = "jaccard" then .ok .jaccard
  else .error .valueError

/-- Whether a Python-call embedding raised an exception. -/
def isError {α : Type} : Except PyErr α → Bool
  | .error _ => true
  | .ok _ => false

/-- Descending order on the similarity component, matching Python's stable
`sorted(..., key=itemgetter(1), reverse=True)` and `sort(key=lambda x: -x[1])`. -/
def simDesc {α : Type} (a b : α × ℚ) : Prop := b.2 ≤ a.2

instance {α : Type} : DecidableRel (@simDesc α) := fun a b =>
  inferInstanceAs (Decidable (b.2 ≤ a.2))

instance {α : Type} : IsTotal (α × ℚ) simDesc := ⟨fun a b => le_total b.2 a.2⟩

instance {α : Type} : IsTrans (α × ℚ) simDesc := ⟨fun _ _ _ h1 h2 => le_trans h2 h1⟩

/-- Stable descending sort by the similarity/score component. -/
def sortDescBySnd {α : Type} (l : List (α × ℚ)) : List (α × ℚ) :=
  List.insertionSort simDesc l

/-- Claim C9 (amended): an invalid `sim_type` is not detected at construction —
`UserCF.__init__` raises nothing for any `sim_type`, printing at most a suitability
warning — and the fatal `ValueError` comes from the `sim_type` dispatch in `fit`,
before the similarity matrix is computed. -/
theorem usercf_simtype_error_at_fit (task : Task) (gm : ℚ) (nu ni k : ℕ)
    (sim_type : String) (h1 : sim_type ≠ "cosine") (h2 : sim_type ≠ "pearson")
    (h3 : sim_type ≠ "jaccard") :
    isError (usercf_init task gm nu ni sim_type k) = false ∧
    fit_sim_func sim_type = .error .valueError := by
  refine ⟨rfl, ?_⟩
  rw [fit_sim_func, if_neg h1, if_neg h2, if_neg h3]

/-- Witness for C9 at another invalid string. -/
theorem usercf_simtype_error_at_fit_witness :
    isError (usercf_init .ranking 0 5 5 "bar" 20) = false ∧
    fit_sim_func "bar" = .error .valueError :=
  usercf_simtype_error_at_fit .ranking 0 5 5 20 "bar" (by simp) (by simp) (by simp)

/-- Counterexample for C9 as stated: constructing UserCF with the invalid sim_type
"foo" raises no error at construction; the ValueError surfaces only at fit time. -/
theorem usercf_construction_no_validation_cex :
    isError (usercf_init .ranking 0 5 5 "foo" 20) = false ∧
    fit_sim_func "foo" = .error .valueError :=
  ⟨rfl, by simp [fit_sim_func]⟩

/-! ### Unknown-entity handling (`build_transformed_data`, computation.py lines 7-35,
and `UserCF.predict`, user_cf.py lines 72-133) -/

/-- The `user2id.get(u, n_users)` / `item2id.get(i, n_items)` mapping inside
`build_transformed_data` (computation.py lines 13-14): raw IDs absent from the
trained id map fall back to the sentinel. -/
def map_ids (id_map : List (ℕ × ℕ)) (sentinel : ℕ) (raw : List ℕ) : List ℕ :=
  raw.map (fun u => (List.lookup u id_map).getD sentinel)

/-- Modelled from the spec: `Base._check_unknown` is not under src/. Following the
spec's unknown-entity handling, user/item IDs outside the trained range are mapped
to the reserved sentinel IDs `n_users`/`n_items`, and the positions holding unknown
entries are recorded. -/
def check_unknown (n_users n_items : ℕ) (users items : List ℕ) :
    List ℕ × List ℕ × List ℕ :=
  ((List.range users.length).filter
      (fun p => decide (n_users ≤ users.getD p 0) || decide (n_items ≤ items.getD p 0)),
   users.map (fun u => if u < n_users then u else n_users),
   items.map (fun i => if i < n_items then i else n_items))

/-- `np.intersect1d(sim_users, item_interacted_u, ...)` paired back through
`zip(common_labels, common_sims)`: for the CSR rows in ascending-index order this
lists `(label, similarity)` over the common neighbors. -/
def common_pairs (d : CFData) (u i : ℕ) : List (ℚ × ℚ) :=
  (d.sim_rows u).filterMap
    (fun ns => (List.lookup ns.1 (d.item_rows i)).map (fun lb => (lb, ns.2)))

/-- One iteration of the prediction loop in `UserCF.predict` (user_cf.py 85-128):
default when there is no common interaction or no positive similarity, otherwise a
similarity-weighted average (rating, clipped) or the mean of the top similarities
(ranking). -/
def predict_pair (d : CFData) (task : Task) (lo hi dft : ℚ) (u i : ℕ) : ℚ :=
  let common := common_pairs d u i
  if common.isEmpty || common.all (fun p => decide (p.2 ≤ 0)) then dft
  else
    let kn := ((sortDescBySnd common).takeWhile (fun p => decide (0 < p.2))).take d.k
    match task with
    | .rating => clip ((kn.map (fun p => p.1 * p.2)).sum / (kn.map Prod.snd).sum) lo hi
    | .ranking => (kn.map Prod.snd).sum / (kn.length : ℚ)

/-- Embedding of `UserCF.predict`: unknown IDs are mapped to the sentinel
(spec-modelled `_check_unknown`), every pair is scored, and positions that held
unknown entries are overwritten with the default prediction
(`preds[unknown_index] = self.default_prediction`). -/
def usercf_predict (d : CFData) (task : Task) (lo hi dft : ℚ)
    (users items : List ℕ) : List ℚ :=
  let cu := check_unknown d.n_users d.n_items users items
  let preds := List.zipWith (predict_pair d task lo hi dft) cu.2.1 cu.2.2
  (List.range preds.length).map (fun p => if p ∈ cu.1 then dft else preds.getD p 0)

theorem getD_range (n p : ℕ) (h : p < n) : (List.range n).getD p 0 = p := by
  rw [List.getD_eq_getElem _ _ (by simpa using h)]
  simp

/-- Claim C8: raw user/item IDs outside the trained range are mapped to the reserved
sentinel ID (`n_users` for users, `n_items` for items), and a prediction request
holding unknown entries returns the default prediction at those positions instead of
failing, however many unknown entries it holds. -/
theorem unknown_maps_to_sentinel_and_default (id_map : List (ℕ × ℕ)) (sentinel : ℕ)
    (raw : List ℕ) (q : ℕ) (hq : q < raw.length)
    (hmiss : List.lookup (raw.getD q 0) id_map = none)
    (d : CFData) (task : Task) (lo hi dft : ℚ) (users items : List ℕ) (p : ℕ)
    (hp : p < users.length) (hlen : items.length = users.length)
    (hunk : d.n_users ≤ users.getD p 0 ∨ d.n_items ≤ items.getD p 0) :
    (map_ids id_map sentinel raw).getD q 0 = sentinel ∧
    (usercf_predict d task lo hi dft users items).length = users.length ∧
    (usercf_predict d task lo hi dft users items).getD p 0 = dft := by
  have hpreds_len : (List.zipWith
      (predict_pair d task lo hi dft)
      ((check_unknown d.n_users d.n_items users items).2.1)
      ((check_unknown d.n_users d.n_items users items).2.2)).length = users.length := by
    simp [check_unknown, List.length_zipWith, hlen]
  refine ⟨?_, ?_, ?_⟩
  · rw [map_ids, getD_map_lt _ _ q 0 0 hq, hmiss]
    rfl
  · simp only [usercf_predict]
    rw [List.length_map, List.length_range, hpreds_len]
  · simp only [usercf_predict]
    rw [getD_map_lt _ _ p 0 0 (by rw [List.length_range, hpreds_len]; exact hp),
      getD_range _ p (by rw [hpreds_len]; exact hp)]
    have hpmem : p ∈ (check_unknown d.n_users d.n_items users items).1 := by
      simp only [check_unknown]
      rw [List.mem_filter]
      refine ⟨List.mem_range.mpr hp, ?_⟩
      simp only [Bool.or_eq_true, decide_eq_true_eq]
      exact hunk
    rw [if_pos hpmem]

/-- Concrete data for the C8 witness: an empty trained model with 3 users and
10 items. -/
def cfd8 : CFData :=
  { n_users := 3
    n_items := 10
    sim_rows := fun _ => []
    inter_rows := fun _ => []
    item_rows := fun _ => []
    user_consumed := fun _ => []
    k := 20 }

/-- Witness for C8: raw ID 9 absent from the id map lands on sentinel 7, and a
single-example request with the unknown user 5 returns the default prediction 37. -/
theorem unknown_maps_to_sentinel_and_default_witness :
    (map_ids [(3, 0)] 7 [9]).getD 0 0 = 7 ∧
    (usercf_predict cfd8 .ranking 0 1 37 [5] [0]).getD 0 0 = 37 :=
  have h := unknown_maps_to_sentinel_and_default [(3, 0)] 7 [9] 0 (by simp) rfl
    cfd8 .ranking 0 1 37 [5] [0] 0 (by simp) (by simp)
    (Or.inl (by norm_num [cfd8]))
  ⟨h.1, h.2.2⟩

/-! ### `TransformedSet` construction (`build_transformed_data`, computation.py
lines 21-24, against transformed.py lines 36-51) -/

/-- Parameter names accepted by `TransformedSet.__init__`
(transformed.py lines 36-43). -/
def transformed_set_init_params : List String :=
  ["user_indices", "item_indices", "labels", "sparse_indices", "dense_values"]

/-- Method and property names defined by class `TransformedSet`
(transformed.py lines 36-88). -/
def transformed_set_attrs : List String :=
  ["__init__", "__len__", "__getitem__", "user_indices", "item_indices",
   "sparse_indices", "dense_values", "labels", "sparse_interaction"]

/-- Python call semantics: a keyword argument whose name is not among the callee's
parameters raises `TypeError`. -/
def check_call_kwargs (params kwargs : List String) : Except PyErr Unit :=
  if kwargs.all (fun kw => params.contains kw) then .ok () else .error .typeError

/-- Embedding of `build_transformed_data` (computation.py lines 7-35): map the raw
IDs through the trained id maps with the sentinel default, then construct
`TransformedSet(user_indices, item_indices, labels, sparse_indices, dense_values,
train=False)`. -/
def build_transformed_data (user2id item2id : List (ℕ × ℕ)) (n_users n_items : ℕ)
    (users items : List ℕ) (negative_sample : Bool) :
    Except PyErr (List ℕ × List ℕ) :=
  let user_indices := map_ids user2id n_users users
  let item_indices := map_ids item2id n_items items
  match check_call_kwargs transformed_set_init_params ["train"] with
  | .error e => .error e
  | .ok _ => .ok (user_indices, item_indices)

/-- Claim C10: every call to `build_transformed_data` raises `TypeError` before
returning a dataset — the `train` keyword is not among the parameters of
`TransformedSet.__init__` — and `build_negative_samples`, which the
`negative_sample` branch would call next, is not an attribute of `TransformedSet`. -/
theorem build_transformed_data_type_error (user2id item2id : List (ℕ × ℕ))
    (n_users n_items : ℕ) (users items : List ℕ) (negative_sample : Bool) :
    build_transformed_data user2id item2id n_users n_items users items negative_sample
        = .error .typeError ∧
    "train" ∉ transformed_set_init_params ∧
    "build_negative_samples" ∉ transformed_set_attrs := by
  refine ⟨?_, by simp [transformed_set_init_params], by simp [transformed_set_attrs]⟩
  simp [build_transformed_data, check_call_kwargs, transformed_set_init_params]

end LibRec
